import Mathlib

/-!
Verification of the product-catalog and account views of the
`api_platzi_store` storefront.

The product views (`products/views.py`) proxy a remote catalog API:
`product_list` fetches the full product list and filters it client-side by
category name and by a case-insensitive substring search; `product_delete`
issues a best-effort remote DELETE. The account API views
(`accounts/views.py`) register and authenticate users against the framework
user store and issue bearer tokens with get-or-create semantics.

Remote HTTP calls are embedded by passing their outcome as a parameter:
`none` stands for a `requests.RequestException` (timeout or non-2xx after
`raise_for_status`), `some v` for a successful JSON body `v`.
-/

/- ### Remote catalog data model

A product as consumed by `product_list`: the view reads `p['id']`,
`p['title']` and `p['category']['name']` from the upstream JSON. -/

structure Category where
  id : Nat
  name : String
deriving DecidableEq

structure Product where
  id : Nat
  title : String
  category : Category
deriving DecidableEq

/- ### Python string primitives used by the views -/

/-- ASCII whitespace, as stripped by Python `str.strip()`. -/
def isPySpace (c : Char) : Bool :=
  c = ' ' || c = '\t' || c = '\n' || c = '\r' || c = '\x0b' || c = '\x0c'

/-- Python `str.strip()`: drop whitespace from both ends. -/
def pyStrip (s : String) : String :=
  String.mk (((s.data.dropWhile isPySpace).reverse.dropWhile isPySpace).reverse)

/-- Python `str.lower()` (ASCII case folding suffices for this model). -/
def pyLower (s : String) : String :=
  String.mk (s.data.map Char.toLower)

/-- Substring containment over character lists, mirroring Python `a in b`. -/
def listContains (needle : List Char) : List Char → Bool
  | [] => needle.isEmpty
  | c :: rest => needle.isPrefixOf (c :: rest) || listContains needle rest

/-- Python `needle in haystack` on strings. -/
def strContains (haystack needle : String) : Bool :=
  listContains needle.data haystack.data

/- ### products/views.py : product_list

The second (effective) definition of `product_list` (lines 138-172). The
upstream GET is `fetched` (`none` on `RequestException`, in which case
`productos = []`); `categoryParam` and `qParam` are `request.GET.get`
results (`none` when the query parameter is absent). The view also renders
a sorted category list and the selected name in its template context; no
claim concerns those, so the embedding returns the filtered `productos`
sequence handed to the template. -/

/-- The search predicate of lines 162-164: the (already stripped and
lower-cased) query is a substring of `str(p['id']).lower()`,
`p['title'].lower()` or `p['category']['name'].lower()`. -/
def matchesQuery (query : String) (p : Product) : Bool :=
  strContains (pyLower (toString p.id)) query
  || strContains (pyLower p.title) query
  || strContains (pyLower p.category.name) query

def product_list (fetched : Option (List Product))
    (categoryParam qParam : Option String) : List Product :=
  let productos := match fetched with
    | some ps => ps
    | none => []
  let selected := categoryParam.getD "All"
  let productos := if selected ≠ "All" then
      productos.filter (fun p => p.category.name == selected)
    else productos
  let query := pyLower (pyStrip (qParam.getD ""))
  let productos := if query ≠ "" then
      productos.filter (matchesQuery query)
    else productos
  productos

/- ### products/views.py : product_delete

`product_delete` (lines 125-136) issues a remote DELETE only on POST and
swallows any `RequestException` (`except: pass`), always redirecting to the
product list. The embedding records the upstream calls the view issues and
the view result. -/

inductive HttpMethod
  | GET
  | POST
deriving DecidableEq

inductive ViewResult
  | redirect (target : String)
deriving DecidableEq

inductive UpstreamCall
  | deleteProduct (pid : Nat)
deriving DecidableEq

def product_delete (method : HttpMethod) (product_id : Nat)
    (remoteOutcome : Option Unit) : List UpstreamCall × ViewResult :=
  match method with
  | HttpMethod.POST =>
    match remoteOutcome with
    | some _ =>
        ([UpstreamCall.deleteProduct product_id],
         ViewResult.redirect "products:product_list")
    | none =>
        ([UpstreamCall.deleteProduct product_id],
         ViewResult.redirect "products:product_list")
  | _ => ([], ViewResult.redirect "products:product_list")

/-- Effect of a sequence of upstream calls on the remote catalog: a DELETE
removes the products with the given id. -/
def applyUpstream (catalog : List Product) : List UpstreamCall → List Product
  | [] => catalog
  | UpstreamCall.deleteProduct pid :: rest =>
      applyUpstream (catalog.filter fun p => p.id != pid) rest

/- ### Demo data from the spec examples -/

def clothesCat : Category := { id := 1, name := "Clothes" }

def homeCat : Category := { id := 2, name := "Home" }

def shirt : Product := { id := 1, title := "Shirt", category := clothesCat }

def mug : Product := { id := 2, title := "Mug", category := homeCat }

def demoProducts : List Product := [shirt, mug]

/- ### accounts/views.py : account/session state

The framework user store and DRF token table, as one explicit state. A
token key is a natural number: fresh keys are drawn from a counter, which
models opaque distinct token strings. -/

structure UserRec where
  username : String
  email : String
  password : String
deriving DecidableEq

structure TokenRec where
  username : String
  key : Nat
deriving DecidableEq

structure AuthState where
  users : List UserRec
  tokens : List TokenRec
  nextKey : Nat
deriving DecidableEq

def AuthState.init : AuthState := { users := [], tokens := [], nextKey := 0 }

/-- `User.objects.filter(username=username).exists()` (views.py line 197). -/
def userExists (s : AuthState) (u : String) : Bool :=
  s.users.any (fun r => r.username == u)

def findUser (s : AuthState) (u : String) : Option UserRec :=
  s.users.find? (fun r => r.username == u)

/-- `Token.objects.get_or_create(user=user)` (views.py lines 46 and 97):
return the existing token of the user when one exists, otherwise create a
fresh one for the user. Modelled from the spec: the DRF token table is
framework code not in the sources; the spec states get-or-create semantics
with no rotation. -/
def getOrCreateToken (s : AuthState) (u : String) : AuthState × Nat :=
  match s.tokens.find? (fun t => t.username == u) with
  | some t => (s, t.key)
  | none =>
      ({ s with
          tokens := s.tokens ++ [{ username := u, key := s.nextKey }],
          nextKey := s.nextKey + 1 },
       s.nextKey)

structure RegisterData where
  username : String
  email : String
  password : String
  password2 : String

structure LoginData where
  username : String
  password : String

structure ApiResponse where
  status : Nat
  success : Bool
  token : Option Nat
  errors : List (String × String)
deriving DecidableEq

/-- Modelled from the spec: `UserRegistrationSerializer.is_valid()`
(accounts/serializers.py is not among the sources). Per spec sections 4.1
and 4.3, registration fails with field-keyed validation errors on a
duplicate username, a password shorter than 8 characters, or a mismatched
confirmation. -/
def registrationErrors (s : AuthState) (d : RegisterData) :
    List (String × String) :=
  (if userExists s d.username then
      [("username", "A user with that username already exists.")]
    else [])
  ++ (if d.password.length < 8 then
      [("password", "This password is too short.")]
    else [])
  ++ (if d.password = d.password2 then []
    else [("password2", "The two password fields do not match.")])

/-- `register_api` (views.py lines 17-63): on valid data, save the new user,
get-or-create their token and answer 201 with the token; on validation
errors answer 400 with the errors and change nothing. -/
def register_api (s : AuthState) (d : RegisterData) : AuthState × ApiResponse :=
  let errs := registrationErrors s d
  if errs.isEmpty then
    let s1 : AuthState :=
      { s with users := s.users ++
          [{ username := d.username, email := d.email, password := d.password }] }
    let r := getOrCreateToken s1 d.username
    (r.1, { status := 201, success := true, token := some r.2, errors := [] })
  else
    (s, { status := 400, success := false, token := none, errors := errs })

/-- Modelled from the spec: `UserLoginSerializer` validation backed by
django `authenticate` (accounts/serializers.py and the framework hash check
are not among the sources). Per spec section 4.1, login authenticates the
username against the stored credential and fails on bad credentials. -/
def authenticateUser (s : AuthState) (d : LoginData) : Option UserRec :=
  match findUser s d.username with
  | some u => if u.password == d.password then some u else none
  | none => none

/-- `login_api` (views.py lines 66-114): on valid credentials, get-or-create
the token and answer 200 with it; otherwise answer 400 and change nothing.
The django session login has no bearing on the user or token stores. -/
def login_api (s : AuthState) (d : LoginData) : AuthState × ApiResponse :=
  match authenticateUser s d with
  | some u =>
      let r := getOrCreateToken s u.username
      (r.1, { status := 200, success := true, token := some r.2, errors := [] })
  | none =>
      (s, { status := 400, success := false, token := none,
            errors := [("non_field_errors", "Unable to log in.")] })

/-- `logout_api` (views.py lines 117-148): the caller is identified by a
token; `request.user.auth_token.delete()` removes that user's token. With
no valid token the endpoint is unauthorized and changes nothing. -/
def logout_api (s : AuthState) (tokenKey : Nat) : AuthState × ApiResponse :=
  match s.tokens.find? (fun t => t.key == tokenKey) with
  | some t =>
      ({ s with tokens := s.tokens.filter (fun r => r.username != t.username) },
       { status := 200, success := true, token := none, errors := [] })
  | none =>
      (s, { status := 401, success := false, token := none, errors := [] })

structure CheckResponse where
  status : Nat
  success : Bool
  available : Option Bool
deriving DecidableEq

/-- `check_username_api` (views.py lines 174-203): `request.GET.get` yields
the empty string for an absent parameter; an empty username is refused with
400 and no availability field, otherwise availability is the negation of
existence. The handler only queries the stores. -/
def check_username_api (s : AuthState) (usernameParam : Option String) :
    AuthState × CheckResponse :=
  let username := usernameParam.getD ""
  if username == "" then
    (s, { status := 400, success := false, available := none })
  else
    (s, { status := 200, success := true,
          available := some (!userExists s username) })

/-- The token table projected to its owners. -/
def tokenUsers (s : AuthState) : List String :=
  s.tokens.map (fun t => t.username)

/-- States reachable from the empty store by the register, login and logout
endpoints. -/
inductive Reachable : AuthState → Prop
  | init : Reachable AuthState.init
  | register (s : AuthState) (d : RegisterData) :
      Reachable s → Reachable (register_api s d).1
  | login (s : AuthState) (d : LoginData) :
      Reachable s → Reachable (login_api s d).1
  | logout (s : AuthState) (k : Nat) :
      Reachable s → Reachable (logout_api s k).1

def demoReg : RegisterData :=
  { username := "alice", email := "alice@example.com",
    password := "password123", password2 := "password123" }

/- ### Claims about the product views -/

/-- C1: for every fetched upstream product list and every selected category
name other than "All" (with no search query), `product_list` returns exactly
the products whose category name equals the selected name, in their original
order. -/
theorem product_list_category_filter (ps : List Product) (sel : String)
    (h : sel ≠ "All") :
    product_list (some ps) (some sel) none =
      ps.filter (fun p => p.category.name == sel) := by
  simp [product_list, h, pyStrip, pyLower]

/-- C1 witness: on the spec example list with selected = "Clothes",
`product_list` returns only the Shirt product (id 1). -/
theorem product_list_category_filter_witness :
    product_list (some demoProducts) (some "Clothes") none = [shirt] :=
  (product_list_category_filter demoProducts "Clothes" (by decide)).trans
    (by decide)

/-- C2 counterexample: the search query " mug " is non-empty, and
`product_list` returns the Mug product for it even though the lower-cased
query " mug " is a substring of none of that product's id, title or category
name — so the returned sequence is not exactly the products matched by the
lower-cased query as the claim states. -/
theorem product_list_query_unstripped_counterexample :
    product_list (some demoProducts) none (some " mug ") = [mug] ∧
    matchesQuery (pyLower " mug ") mug = false := by
  decide

/-- C2 (amended): for every fetched upstream product list and every search
query that is non-empty after stripping surrounding whitespace,
`product_list` returns exactly the products for which the stripped,
lower-cased query is a substring of the product id (as a string), title or
category name, each compared case-insensitively, in their original order. -/
theorem product_list_query_filter (ps : List Product) (q : String)
    (h : pyLower (pyStrip q) ≠ "") :
    product_list (some ps) none (some q) =
      ps.filter (matchesQuery (pyLower (pyStrip q))) := by
  simp [product_list, h]

/-- C2 witness: on the spec example list with searchQuery = "mug",
`product_list` returns only the Mug product (id 2). -/
theorem product_list_query_filter_witness :
    product_list (some demoProducts) none (some "mug") = [mug] :=
  (product_list_query_filter demoProducts "mug" (by decide)).trans (by decide)

/-- C3: when the upstream products request fails (timeout or non-2xx, i.e.
`requests.RequestException`), `product_list` returns the empty product
sequence for every category and search parameter; in the embedding the view
is a total function, so the failure is not propagated to the caller. -/
theorem product_list_upstream_failure_empty (c q : Option String) :
    product_list none c q = [] := by
  simp [product_list]

/-- C4: for every product id, `product_delete` on POST produces the same
outcome when the remote DELETE fails as when it succeeds — the failure is
swallowed and the caller is redirected to the product list in both cases. -/
theorem product_delete_failure_swallowed (pid : Nat) :
    product_delete HttpMethod.POST pid none =
      product_delete HttpMethod.POST pid (some ()) ∧
    (product_delete HttpMethod.POST pid none).2 =
      ViewResult.redirect "products:product_list" := by
  simp [product_delete]

/-- C10: for every inbound method other than POST, `product_delete` issues
no upstream call (so the remote catalog is unchanged by the calls it makes)
and merely redirects to the product list. -/
theorem product_delete_non_post_no_call (m : HttpMethod) (pid : Nat)
    (out : Option Unit) (h : m ≠ HttpMethod.POST) :
    (product_delete m pid out).1 = [] ∧
    (∀ catalog : List Product,
      applyUpstream catalog (product_delete m pid out).1 = catalog) ∧
    (product_delete m pid out).2 =
      ViewResult.redirect "products:product_list" := by
  cases m with
  | POST => exact absurd rfl h
  | GET => simp [product_delete, applyUpstream]

/-- C10 witness: a GET request to `product_delete` issues no upstream call,
leaves a concrete catalog unchanged and redirects to the product list. -/
theorem product_delete_non_post_no_call_witness :
    (product_delete HttpMethod.GET 1 none).1 = [] ∧
    (∀ catalog : List Product,
      applyUpstream catalog (product_delete HttpMethod.GET 1 none).1 =
        catalog) ∧
    (product_delete HttpMethod.GET 1 none).2 =
      ViewResult.redirect "products:product_list" :=
  product_delete_non_post_no_call HttpMethod.GET 1 none (by decide)

/- ### Invariant machinery for the token table -/

lemma getOrCreateToken_tokenUsers_nodup (s : AuthState) (u : String)
    (h : (tokenUsers s).Nodup) :
    (tokenUsers (getOrCreateToken s u).1).Nodup := by
  unfold getOrCreateToken
  cases hf : s.tokens.find? (fun t => t.username == u) with
  | some t => simpa [tokenUsers] using h
  | none =>
    have hmem : u ∉ tokenUsers s := by
      intro hm
      obtain ⟨t, ht, hut⟩ := List.mem_map.mp hm
      have hnone := List.find?_eq_none.mp hf t ht
      simp [hut] at hnone
    simp only [tokenUsers, List.map_append, List.map_cons, List.map_nil]
    rw [List.nodup_append]
    exact ⟨h, List.nodup_singleton u, List.disjoint_singleton.mpr hmem⟩

lemma register_api_tokenUsers_nodup (s : AuthState) (d : RegisterData)
    (h : (tokenUsers s).Nodup) :
    (tokenUsers (register_api s d).1).Nodup := by
  unfold register_api
  by_cases he : (registrationErrors s d).isEmpty
  · simp only [he, if_true]
    exact getOrCreateToken_tokenUsers_nodup _ _ (by simpa [tokenUsers] using h)
  · simp only [he, if_false]
    exact h

lemma login_api_tokenUsers_nodup (s : AuthState) (d : LoginData)
    (h : (tokenUsers s).Nodup) :
    (tokenUsers (login_api s d).1).Nodup := by
  unfold login_api
  cases authenticateUser s d with
  | some u => exact getOrCreateToken_tokenUsers_nodup _ _ h
  | none => exact h

lemma logout_api_tokenUsers_nodup (s : AuthState) (k : Nat)
    (h : (tokenUsers s).Nodup) :
    (tokenUsers (logout_api s k).1).Nodup := by
  unfold logout_api
  cases s.tokens.find? (fun t => t.key == k) with
  | some t =>
    refine List.Nodup.sublist ?_ h
    exact List.Sublist.map _ (List.filter_sublist _)
  | none => exact h

/-- Every reachable state has pairwise distinct token owners. -/
lemma reachable_tokenUsers_nodup (s : AuthState) (h : Reachable s) :
    (tokenUsers s).Nodup := by
  induction h with
  | init => simp [tokenUsers, AuthState.init]
  | register s d _ ih => exact register_api_tokenUsers_nodup s d ih
  | login s d _ ih => exact login_api_tokenUsers_nodup s d ih
  | logout s k _ ih => exact logout_api_tokenUsers_nodup s k ih

lemma filter_username_length_le (l : List TokenRec) (u : String)
    (h : (l.map (fun t => t.username)).Nodup) :
    (l.filter (fun t => t.username == u)).length ≤ 1 := by
  induction l with
  | nil => simp
  | cons a l ih =>
    rw [List.map_cons, List.nodup_cons] at h
    obtain ⟨ha, hl⟩ := h
    by_cases hau : a.username = u
    · have hnil : l.filter (fun t => t.username == u) = [] := by
        rw [List.filter_eq_nil_iff]
        intro t ht
        simp only [beq_iff_eq]
        intro htu
        exact ha (List.mem_map.mpr ⟨t, ht, htu.trans hau.symm⟩)
      simp [List.filter_cons, hau, hnil]
    · simpa [List.filter_cons, hau] using ih hl

lemma registrationErrors_eq_nil_iff (s : AuthState) (d : RegisterData) :
    registrationErrors s d = [] ↔
      userExists s d.username = false ∧ ¬ d.password.length < 8 ∧
        d.password = d.password2 := by
  unfold registrationErrors
  cases hu : userExists s d.username <;>
    by_cases hp : d.password.length < 8 <;>
    by_cases hq : d.password = d.password2 <;>
    simp [hu, hp, hq]

lemma getOrCreateToken_users (s : AuthState) (u : String) :
    (getOrCreateToken s u).1.users = s.users := by
  unfold getOrCreateToken
  cases s.tokens.find? (fun t => t.username == u) <;> simp

/-- A second get-or-create for the same user finds the token the first one
guaranteed and changes nothing. -/
lemma getOrCreateToken_stable (s : AuthState) (u : String) :
    getOrCreateToken (getOrCreateToken s u).1 u =
      ((getOrCreateToken s u).1, (getOrCreateToken s u).2) := by
  unfold getOrCreateToken
  cases hf : s.tokens.find? (fun t => t.username == u) with
  | some t => simp [hf]
  | none =>
    simp only [hf]
    rw [List.find?_append, hf]
    simp

/- ### Claims about the account views -/

/-- C5: in every state reachable by register, login and logout operations,
each user owns at most one token in the token table. -/
theorem auth_at_most_one_token (s : AuthState) (h : Reachable s) (u : String) :
    (s.tokens.filter (fun t => t.username == u)).length ≤ 1 :=
  filter_username_length_le s.tokens u (reachable_tokenUsers_nodup s h)

/-- C5 witness: after registering alice and logging her in, alice owns at
most one token. -/
theorem auth_at_most_one_token_witness :
    (((login_api (register_api AuthState.init demoReg).1
        { username := "alice", password := "password123" }).1).tokens.filter
      (fun t => t.username == "alice")).length ≤ 1 :=
  auth_at_most_one_token _
    (Reachable.login _ _ (Reachable.register _ _ Reachable.init)) "alice"

/-- C6: for every user created by a successful `register_api` call, a
subsequent `login_api` with the same credentials returns the very token
that registration returned. -/
theorem register_then_login_same_token (s : AuthState) (d : RegisterData)
    (h : registrationErrors s d = []) :
    ∃ k : Nat,
      (register_api s d).2.token = some k ∧
      (login_api (register_api s d).1
        { username := d.username, password := d.password }).2.token = some k := by
  have hisEmpty : (registrationErrors s d).isEmpty = true := by simp [h]
  have hu : userExists s d.username = false :=
    ((registrationErrors_eq_nil_iff s d).mp h).1
  have hfindu : s.users.find? (fun r => r.username == d.username) = none := by
    rw [List.find?_eq_none]
    intro r hr hbe
    have hany : s.users.any (fun r => r.username == d.username) = true :=
      List.any_eq_true.mpr ⟨r, hr, hbe⟩
    rw [userExists] at hu
    rw [hu] at hany
    exact Bool.false_ne_true hany
  refine ⟨(getOrCreateToken
      { s with users := s.users ++
          [{ username := d.username, email := d.email, password := d.password }] }
      d.username).2, ?_, ?_⟩
  · simp [register_api, hisEmpty]
  · simp only [register_api, hisEmpty, if_true, login_api, authenticateUser,
      findUser, getOrCreateToken_users]
    rw [List.find?_append, hfindu]
    simp [getOrCreateToken_stable]

/-- C6 witness: registering alice and then logging in with her credentials
yields one and the same token key. -/
theorem register_then_login_same_token_witness :
    ∃ k : Nat,
      (register_api AuthState.init demoReg).2.token = some k ∧
      (login_api (register_api AuthState.init demoReg).1
        { username := demoReg.username,
          password := demoReg.password }).2.token = some k :=
  register_then_login_same_token AuthState.init demoReg (by decide)

/-- C7: a registration whose password is shorter than 8 characters or whose
confirmation differs is answered with 400 and non-empty field-keyed errors,
creates no user, issues no token, and leaves the whole store unchanged. -/
theorem invalid_registration_rejected (s : AuthState) (d : RegisterData)
    (h : d.password.length < 8 ∨ d.password ≠ d.password2) :
    register_api s d =
      (s, { status := 400, success := false, token := none,
            errors := registrationErrors s d }) ∧
    registrationErrors s d ≠ [] := by
  have hne : registrationErrors s d ≠ [] := by
    intro hnil
    obtain ⟨_, hp, hq⟩ := (registrationErrors_eq_nil_iff s d).mp hnil
    cases h with
    | inl hlt => exact hp hlt
    | inr hmm => exact hmm hq
  have hisEmpty : (registrationErrors s d).isEmpty = false := by
    cases he : (registrationErrors s d).isEmpty
    · rfl
    · exact absurd (List.isEmpty_iff.mp he) hne
  exact ⟨by simp [register_api, hisEmpty], hne⟩

/-- C7 witness: registering alice with a mismatched confirmation yields 400
with errors and leaves the empty store empty. -/
theorem invalid_registration_rejected_witness :
    register_api AuthState.init { demoReg with password2 := "password124" } =
      (AuthState.init,
       { status := 400, success := false, token := none,
         errors := registrationErrors AuthState.init
           { demoReg with password2 := "password124" } }) ∧
    registrationErrors AuthState.init
      { demoReg with password2 := "password124" } ≠ [] :=
  invalid_registration_rejected AuthState.init
    { demoReg with password2 := "password124" } (Or.inr (by decide))

/-- C8: for every non-empty username, `check_username_api` answers 200 with
available = true exactly when no user with that username exists, and the
user and token stores are unchanged. -/
theorem check_username_reports_existence (s : AuthState) (u : String)
    (h : u ≠ "") :
    check_username_api s (some u) =
      (s, { status := 200, success := true,
            available := some (!userExists s u) }) := by
  have hbe : (u == "") = false := beq_eq_false_iff_ne.mpr h
  simp [check_username_api, hbe]

/-- C8 witness: after registering alice, checking "alice" answers 200 with
availability the negation of existence and leaves the state unchanged. -/
theorem check_username_reports_existence_witness :
    check_username_api (register_api AuthState.init demoReg).1 (some "alice") =
      ((register_api AuthState.init demoReg).1,
       { status := 200, success := true,
         available :=
           some (!userExists (register_api AuthState.init demoReg).1
             "alice") }) :=
  check_username_reports_existence _ "alice" (by decide)

/-- C9: with the username query parameter absent or empty,
`check_username_api` answers 400 with success = false and no availability
field, for every state, which it leaves unchanged. -/
theorem check_username_missing_param (s : AuthState) :
    check_username_api s none =
      (s, { status := 400, success := false, available := none }) ∧
    check_username_api s (some "") =
      (s, { status := 400, success := false, available := none }) := by
  exact ⟨rfl, rfl⟩
